import Mathlib

/-! Creative-pilot: the layer store of `src/src/App.jsx`

A shallow embedding of the layer array and of the operations `App` runs on it
(`handleFile`, `addTextLayer`, `handleAction`, `applyAction`,
`transformLayerScale`, `transformLayerRotate`, `removeBG`, `moveLayer`,
`deleteLayer`), followed by the properties proved about them.

Modelling conventions.
* JavaScript numbers are exact rationals (`ℚ`); `0.2`, `0.1` and `15` are the
  rationals `1/5`, `1/10` and `15`.
* A JavaScript object field that may be missing is an `Option`.
* `React` state is an explicit `Store`; the setters called by one handler are
  applied in program order.
* `Date.now()`, `URL.createObjectURL` and the answer of the remote service are
  inputs of the operation that consults them.
-/

namespace CreativePilot

/-! ## Data model -/

/-- The `data` object of a layer. Image layers are created with `src`, `blob`,
`x`, `y`, `scale`, `rotation`; text layers with `text`, `x`, `y`, `fontSize`,
`fill`, `fontStyle` (and `draggable` for the two seeded ones). -/
structure LayerData where
  src : Option String
  blob : Option String
  x : Option ℚ
  y : Option ℚ
  scale : Option ℚ
  rotation : Option ℚ
  text : Option String
  fontSize : Option ℚ
  fill : Option String
  fontStyle : Option String
  draggable : Option Bool
deriving DecidableEq

/-- One element of the `layers` array: `{ id, type, data }`. -/
structure Layer where
  id : String
  type : String
  data : LayerData
deriving DecidableEq

/-- The `canvasSize` state. -/
structure CanvasSize where
  width : ℚ
  height : ℚ
deriving DecidableEq

/-- The `useState` cells of `App` that the layer operations read or write. -/
structure Store where
  layers : List Layer
  canvasSize : CanvasSize
  selectedId : Option String
  showPopup : Bool
  pendingAction : Option String
deriving DecidableEq

/-- The first starter layer of `useState([...])`. -/
def headlineLayer : Layer :=
  { id := "text-headline", type := "text",
    data := { src := none, blob := none, x := some 40, y := some 40, scale := none,
              rotation := none, text := some "Summer Sale Up to 50% Off",
              fontSize := some 64, fill := some "#ffffff", fontStyle := some "bold",
              draggable := some true } }

/-- The second starter layer of `useState([...])`. -/
def ctaLayer : Layer :=
  { id := "text-cta", type := "text",
    data := { src := none, blob := none, x := some 40, y := some 140, scale := none,
              rotation := none, text := some "Shop Now",
              fontSize := some 40, fill := some "#ffcc00", fontStyle := some "600",
              draggable := some true } }

/-- The two starter text layers of `useState([...])`. -/
def seededLayers : List Layer := [headlineLayer, ctaLayer]

/-- The state of `App` on first render. -/
def initialStore : Store :=
  { layers := seededLayers, canvasSize := { width := 1080, height := 1080 },
    selectedId := none, showPopup := false, pendingAction := none }

/-- The ids of a layer array, in order. -/
def layerIds (ls : List Layer) : List String := ls.map (fun l => l.id)

/-- JavaScript `v || d` on a number that may be missing: `undefined` and `0`
are falsy. -/
def orDefault (v : Option ℚ) (d : ℚ) : ℚ :=
  match v with
  | none => d
  | some n => if n = 0 then d else n

/-- JavaScript `v || d` on a string that may be `null`: `null` and `""` are
falsy. -/
def orDefaultStr (v : Option String) (d : String) : String :=
  match v with
  | none => d
  | some s => if s = "" then d else s

/-! ## Adding layers -/

/-- The id built by the template `image-${Date.now()}`. -/
def imageId (now : Nat) : String := "image-" ++ toString now

/-- The id built by the template `text-${Date.now()}`. -/
def textId (now : Nat) : String := "text-" ++ toString now

/-- The `newLayer` object that `handleFile` builds for the picked file. -/
def newImageLayer (file url : String) (now : Nat) (canvasSize : CanvasSize) : Layer :=
  { id := imageId now, type := "image",
    data := { src := some url, blob := some file,
              x := some (canvasSize.width / 2), y := some (canvasSize.height / 2),
              scale := some 1, rotation := some 0,
              text := none, fontSize := none, fill := none, fontStyle := none,
              draggable := none } }

/-- The handler `handleFile`: `file` is `e.target.files?.[0]`, `url` the handle returned by
`URL.createObjectURL(file)`, `now` the value of `Date.now()`. -/
def handleFile (file : Option String) (url : String) (now : Nat) (s : Store) : Store :=
  match file with
  | none => s
  | some f => { s with layers := s.layers ++ [newImageLayer f url now s.canvasSize] }

/-- The `opts` argument of `addTextLayer`. -/
structure TextOpts where
  text : Option String
  x : Option ℚ
  y : Option ℚ
  fontSize : Option ℚ
  fill : Option String
  fontStyle : Option String
deriving DecidableEq

/-- The helper `addTextLayer`, the synchronous part: the new layer is appended. (The
`setTimeout` that selects the new id 50 ms later is a separate event.) -/
def addTextLayer (opts : TextOpts) (now : Nat) (s : Store) : Store :=
  let textLayer : Layer :=
    { id := textId now, type := "text",
      data := { src := none, blob := none,
                x := some (opts.x.getD 60), y := some (opts.y.getD 60),
                scale := none, rotation := none,
                text := some (orDefaultStr opts.text "New Text"),
                fontSize := some (orDefault opts.fontSize 36),
                fill := some (orDefaultStr opts.fill "#ffffff"),
                fontStyle := some (orDefaultStr opts.fontStyle "normal"),
                draggable := none } }
  { s with layers := s.layers ++ [textLayer] }

/-! ## Relative transforms -/

/-- The helper `transformLayerScale`: the function passed to `setLayers`. -/
def transformLayerScale (id : String) (delta : ℚ) (prev : List Layer) : List Layer :=
  prev.map fun l =>
    if l.id = id ∧ l.type = "image" then
      { l with data := { l.data with scale := some (max (1/5) (orDefault l.data.scale 1 + delta)) } }
    else l

/-- The helper `transformLayerRotate`: the function passed to `setLayers`. -/
def transformLayerRotate (id : String) (delta : ℚ) (prev : List Layer) : List Layer :=
  prev.map fun l =>
    if l.id = id ∧ l.type = "image" then
      { l with data := { l.data with rotation := some (orDefault l.data.rotation 0 + delta) } }
    else l

/-! ## Background removal -/

/-- What the call to the relay did: `fetch` rejected, or it resolved with a
response whose `ok` flag is `ok`; `body` is the blob read by `res.blob()`
(`none` when that read rejects) and `url` the handle that
`URL.createObjectURL` gives for it. -/
inductive Remote where
  | transportError
  | response (ok : Bool) (body : Option String) (url : String)
deriving DecidableEq

/-- Whether `removeBG` ends in its `catch` block for this answer. -/
def Remote.failed : Remote → Bool
  | .transportError => true
  | .response ok body _ => !ok || body.isNone

/-- What a handler does besides writing state. -/
inductive Event where
  | request (blob : String)
  | consoleError
  | alert (msg : String)
deriving DecidableEq

/-- The number of requests sent to the relay in a trace. -/
def requestCount (es : List Event) : Nat :=
  (es.filter fun e => match e with | .request _ => true | _ => false).length

/-- The number of `alert` notices in a trace. -/
def alertCount (es : List Event) : Nat :=
  (es.filter fun e => match e with | .alert _ => true | _ => false).length

/-- The function `removeBG` passes to `setLayers` once the relay has answered
with success: `newUrl` and `newBlob` are the returned payload. -/
def removeBGSuccess (id : String) (newUrl newBlob : String) (prev : List Layer) : List Layer :=
  prev.map fun l =>
    if l.id = id then
      { l with data := { l.data with src := some newUrl, blob := some newBlob } }
    else l

/-- The `catch` block of `removeBG`. -/
def removeBGCatch : List Event := [Event.consoleError, Event.alert "Remove BG failed!"]

/-- The helper `removeBG`, as a function of the answer of the relay. A layer without a
stored blob makes `formData.append` throw inside the `try`, before any
request is sent. -/
def removeBG (id : String) (remote : Remote) (s : Store) : Store × List Event :=
  match s.layers.find? (fun l => l.id = id) with
  | none => (s, [])
  | some layer =>
    if layer.type ≠ "image" then (s, [])
    else
      match layer.data.blob with
      | none => (s, removeBGCatch)
      | some b =>
        match remote with
        | .transportError => (s, Event.request b :: removeBGCatch)
        | .response ok body url =>
          if !ok then (s, Event.request b :: removeBGCatch)
          else
            match body with
            | none => (s, Event.request b :: removeBGCatch)
            | some newBlob =>
              ({ s with layers := removeBGSuccess id url newBlob s.layers }, [Event.request b])

/-! ## Global actions -/

/-- The call `applyAction(action, id)`; `remote` is the answer the relay gives should
the action be `removeBG`. -/
def applyAction (action : String) (id : String) (remote : Remote) (s : Store) :
    Store × List Event :=
  let s1 : Store := { s with showPopup := false, pendingAction := none }
  if id = "" then (s1, [])
  else if action = "zoom+" then ({ s1 with layers := transformLayerScale id (1/10) s1.layers }, [])
  else if action = "zoom-" then ({ s1 with layers := transformLayerScale id (-(1/10)) s1.layers }, [])
  else if action = "rotateL" then ({ s1 with layers := transformLayerRotate id (-15) s1.layers }, [])
  else if action = "rotateR" then ({ s1 with layers := transformLayerRotate id 15 s1.layers }, [])
  else if action = "removeBG" then removeBG id remote s1
  else (s1, [])

/-- The `imageLayers` array: `layers.filter((l) => l.type === "image")`. -/
def imageLayers (ls : List Layer) : List Layer := ls.filter fun l => l.type = "image"

/-- The call `handleAction(action)`. -/
def handleAction (action : String) (remote : Remote) (s : Store) : Store × List Event :=
  let s1 : Store := { s with pendingAction := some action }
  let imageCount := (s.layers.filter fun l => l.type = "image").length
  if imageCount = 0 then (s1, [])
  else if imageCount = 1 then
    match s.layers.find? (fun l => l.type = "image") with
    | some singleImg => applyAction action singleImg.id remote s1
    | none => (s1, [])
  else ({ s1 with showPopup := true }, [])

/-- The `onClick` of the `Remove BG` toolbar button. -/
def removeBGButton (remote : Remote) (s : Store) : Store × List Event :=
  let s1 : Store := { s with pendingAction := some "removeBG" }
  match imageLayers s.layers with
  | [img] => applyAction "removeBG" img.id remote s1
  | _ => ({ s1 with showPopup := true }, [])

/-- The first button of a popup row:
`applyAction(pendingAction || "zoom+", img.id)`. -/
def popupChoose (imgId : String) (remote : Remote) (s : Store) : Store × List Event :=
  applyAction (orDefaultStr s.pendingAction "zoom+") imgId remote s

/-- The second button of a popup row:
`applyAction(pendingAction || "removeBG", img.id)`. -/
def popupApply (imgId : String) (remote : Remote) (s : Store) : Store × List Event :=
  applyAction (orDefaultStr s.pendingAction "removeBG") imgId remote s

/-! ## Layers panel -/

/-- The method `Array.prototype.findIndex`, with `none` for `-1`. -/
def findIndex (p : Layer → Bool) : List Layer → Option Nat
  | [] => none
  | l :: ls => if p l then some 0 else (findIndex p ls).map (· + 1)

/-- The destructuring swap `[a[i], a[j]] = [a[j], a[i]]` on a copy of the
array; both indices are in range wherever `moveLayer` uses it. -/
def swapAt (a : List Layer) (i j : Nat) : List Layer :=
  match a[i]?, a[j]? with
  | some ai, some aj => (a.set i aj).set j ai
  | _, _ => a

/-- The helper `moveLayer`: the function passed to `setLayers`. -/
def moveLayer (id : String) (direction : String) (prev : List Layer) : List Layer :=
  match findIndex (fun l => l.id = id) prev with
  | none => prev
  | some idx =>
    if direction = "up" ∧ idx < prev.length - 1 then swapAt prev idx (idx + 1)
    else if direction = "down" ∧ idx > 0 then swapAt prev idx (idx - 1)
    else prev

/-- The call `deleteLayer(id)`. -/
def deleteLayer (id : String) (s : Store) : Store :=
  { s with layers := s.layers.filter (fun l => l.id ≠ id),
           selectedId := if s.selectedId = some id then none else s.selectedId }

/-! ## Runs of the layer-list operations -/

/-- The steps that add, remove or reorder layers. -/
inductive Op where
  | handleFile (file : Option String) (url : String) (now : Nat)
  | addTextLayer (opts : TextOpts) (now : Nat)
  | deleteLayer (id : String)
  | moveLayer (id : String) (direction : String)
deriving DecidableEq

/-- One step of the store. -/
def step (s : Store) : Op → Store
  | .handleFile file url now => handleFile file url now s
  | .addTextLayer opts now => addTextLayer opts now s
  | .deleteLayer id => deleteLayer id s
  | .moveLayer id direction => { s with layers := moveLayer id direction s.layers }

/-- The store after a finite sequence of steps. -/
def run (s : Store) (ops : List Op) : Store := ops.foldl step s

/-- The id a step adds to the array, if it adds one. -/
def Op.newId : Op → Option String
  | .handleFile (some _) _ now => some (imageId now)
  | .addTextLayer _ now => some (textId now)
  | _ => none

/-- Every adding step of the run draws an id that is not in the array at
that moment. -/
def freshRun (s : Store) : List Op → Bool
  | [] => true
  | op :: ops =>
    (match op.newId with
     | some i => decide (i ∉ layerIds s.layers)
     | none => true) && freshRun (step s op) ops

/-! ## Repeated zoom -/

/-- The layers after `transformLayerScale(id, d)` has run for each `d` of
`deltas` in turn. -/
def scaleBySeq (id : String) (deltas : List ℚ) (ls : List Layer) : List Layer :=
  deltas.foldl (fun acc d => transformLayerScale id d acc) ls

/-! ## What a global action does to one image layer -/

/-- The layer object `transformLayerScale` builds for a layer it matches. -/
def scaledBy (delta : ℚ) (l : Layer) : Layer :=
  { l with data := { l.data with scale := some (max (1/5) (orDefault l.data.scale 1 + delta)) } }

/-- The layer object `transformLayerRotate` builds for a layer it matches. -/
def rotatedBy (delta : ℚ) (l : Layer) : Layer :=
  { l with data := { l.data with rotation := some (orDefault l.data.rotation 0 + delta) } }

/-- The effect of a zoom or rotate action on the image layer it is applied
to, with the deltas `applyAction` passes. -/
def actionOn (action : String) (l : Layer) : Layer :=
  if action = "zoom+" then scaledBy (1/10) l
  else if action = "zoom-" then scaledBy (-(1/10)) l
  else if action = "rotateL" then rotatedBy (-15) l
  else if action = "rotateR" then rotatedBy 15 l
  else l

/-! ## Stores used to exercise background removal -/

/-- The seeded store after one upload at clock value 1000. -/
def oneImageStore : Store := handleFile (some "a.png") "blob:a" 1000 initialStore

/-! ## The end-to-end scenario -/

/-- The inputs of the scenario: the two picked files with their object URLs
and clock values, and the answer the relay would give. -/
structure Scenario where
  file1 : String
  url1 : String
  now1 : Nat
  file2 : String
  url2 : String
  now2 : Nat
  remote : Remote

/-- After the first upload. -/
def Scenario.afterUpload1 (c : Scenario) : Store :=
  handleFile (some c.file1) c.url1 c.now1 initialStore

/-- After `handleAction("zoom+")`. -/
def Scenario.afterZoom1 (c : Scenario) : Store :=
  (handleAction "zoom+" c.remote c.afterUpload1).1

/-- After `handleAction("rotateL")`. -/
def Scenario.afterRotate (c : Scenario) : Store :=
  (handleAction "rotateL" c.remote c.afterZoom1).1

/-- After the second upload. -/
def Scenario.afterUpload2 (c : Scenario) : Store :=
  handleFile (some c.file2) c.url2 c.now2 c.afterRotate

/-- After the second `handleAction("zoom+")`. -/
def Scenario.afterZoom2 (c : Scenario) : Store :=
  (handleAction "zoom+" c.remote c.afterUpload2).1

/-- After the popup button of the second image is clicked. -/
def Scenario.afterChoice (c : Scenario) : Store :=
  (popupChoose (imageId c.now2) c.remote c.afterZoom2).1

/-- The first image layer as uploaded. -/
def Scenario.image1 (c : Scenario) : Layer :=
  newImageLayer c.file1 c.url1 c.now1 initialStore.canvasSize

/-- The second image layer as uploaded. -/
def Scenario.image2 (c : Scenario) : Layer :=
  newImageLayer c.file2 c.url2 c.now2 initialStore.canvasSize

/-- A layer with its `scale` and `rotation` fields replaced. -/
def withScaleRotation (l : Layer) (scale rotation : ℚ) : Layer :=
  { l with data := { l.data with scale := some scale, rotation := some rotation } }

/-- The scenario run with two uploads one millisecond apart. -/
def sampleScenario : Scenario :=
  { file1 := "a.png", url1 := "blob:a", now1 := 1000,
    file2 := "b.png", url2 := "blob:b", now2 := 1001, remote := Remote.transportError }

/-- An image layer that stores scale 0, as an absolute resize can leave it. -/
def zeroScaleImage : Layer :=
  { id := "image-1", type := "image",
    data := { src := some "blob:a", blob := some "a.png", x := some 540, y := some 540,
              scale := some 0, rotation := some 0, text := none, fontSize := none,
              fill := none, fontStyle := none, draggable := none } }

/-! ## Popup Cancel, direct manipulation and selection -/

/-- The `onClick` of the popup's `Cancel` button: `setShowPopup(false)`. -/
def cancelPopup (s : Store) : Store := { s with showPopup := false }

/-- The function `updateLayerData(id, newData)` passes to `setLayers`. -/
def updateLayerData (id : String) (newData : LayerData) (prev : List Layer) : List Layer :=
  prev.map fun l => if l.id = id then { l with data := newData } else l

/-- The part of the Konva node behind `shapeRef.current` that the resize-end
handler of `EditableText` reads: `node.x()`, `node.y()`, `node.rotation()`
and `node.scaleX()`. -/
structure TextNode where
  x : ℚ
  y : ℚ
  rotation : ℚ
  scaleX : ℚ
deriving DecidableEq

/-- The data object that `onTransformEnd` of `EditableText` hands to
`onChange`. -/
def textTransformData (layer : Layer) (node : TextNode) : LayerData :=
  let scaleX := node.scaleX
  let newFontSize := orDefault layer.data.fontSize 20 * scaleX
  { layer.data with
    x := some node.x, y := some node.y, rotation := some node.rotation,
    fontSize := some newFontSize }

/-- The handler `onTransformEnd` of `EditableText` for `layer`, on the layers
array and the node: one `onChange(layer.id, data)` call, which is
`updateLayerData`; the handler calls no setter of the node, so the node comes
back as it was read. -/
def textTransformEnd (layer : Layer) (node : TextNode) (prev : List Layer) :
    List Layer × TextNode :=
  (updateLayerData layer.id (textTransformData layer node) prev, node)

/-- The events of the user interface that write `layers` or `selectedId`.
`timerSelect` is the callback of the `setTimeout` started by
`addTextLayer`. -/
inductive UiOp where
  | handleFile (file : Option String) (url : String) (now : Nat)
  | addTextLayer (opts : TextOpts) (now : Nat)
  | timerSelect (id : String)
  | deleteLayer (id : String)
  | moveLayer (id : String) (direction : String)
  | updateLayerData (id : String) (newData : LayerData)
  | select (id : String)
  | deselect
  | clearAll
deriving DecidableEq

/-- One event of the user interface. -/
def uiStep (s : Store) : UiOp → Store
  | .handleFile file url now => handleFile file url now s
  | .addTextLayer opts now => addTextLayer opts now s
  | .timerSelect id => { s with selectedId := some id }
  | .deleteLayer id => deleteLayer id s
  | .moveLayer id direction => { s with layers := moveLayer id direction s.layers }
  | .updateLayerData id newData => { s with layers := updateLayerData id newData s.layers }
  | .select id => { s with selectedId := some id }
  | .deselect => { s with selectedId := none }
  | .clearAll => { s with layers := [], selectedId := none }

/-- The store after a finite sequence of user-interface events. -/
def uiRun (s : Store) (ops : List UiOp) : Store := ops.foldl uiStep s

/-- The selection is unset or names a layer of the array. -/
def selectionLive (s : Store) : Prop :=
  match s.selectedId with
  | none => True
  | some id => id ∈ layerIds s.layers

/-- Whether every selection of the run, by a click or by the timer of
`addTextLayer`, names a layer that is in the array when it happens. -/
def selectsLive (s : Store) : List UiOp → Bool
  | [] => true
  | op :: ops =>
    (match op with
     | .timerSelect id => decide (id ∈ layerIds s.layers)
     | .select id => decide (id ∈ layerIds s.layers)
     | _ => true) && selectsLive (uiStep s op) ops

/-- The node after a resize gesture on the call-to-action layer: the reported
position, rotation and horizontal scale factor 2. -/
def resizedNode : TextNode := { x := 100, y := 200, rotation := 30, scaleX := 2 }

/-- The options the `+ Text` button passes to `addTextLayer`. -/
def plusTextOpts : TextOpts :=
  { text := some "New Heading", x := none, y := none, fontSize := some 40, fill := none,
    fontStyle := none }

/-! ## The relay: `server/index.js` -/

/-- The uploaded file `req.files.image`: its bytes and its name. -/
structure UploadedFile where
  data : String
  name : String
deriving DecidableEq

/-- What the call to `https://api.remove.bg/v1.0/removebg` did: `fetch`
rejected, or it resolved with a response of the given status; `body` is the
result of `response.arrayBuffer()` (`none` when that read rejects). -/
inductive Upstream where
  | throws
  | response (status : Nat) (body : Option String)
deriving DecidableEq

/-- The `ok` flag of a fetch response: the status is in the range 200 to
299. -/
def Upstream.ok : Upstream → Bool
  | .throws => false
  | .response status _ => decide (200 ≤ status ∧ status ≤ 299)

/-- The answer of the handler: the status (200 unless `res.status` was
called), the `Content-Type` the handler set with `res.set` (if any) and the
body it sent. -/
structure HttpResponse where
  status : Nat
  contentType : Option String
  body : String
deriving DecidableEq

/-- The `catch` block of the handler. -/
def relayError : HttpResponse :=
  { status := 500, contentType := none, body := "Error removing background" }

/-- The handler of `POST /remove-bg`, as a function of the uploaded file and
of what the upstream call does; the second component is the number of
upstream calls made. -/
def removeBgHandler (file : Option UploadedFile) (upstream : Upstream) : HttpResponse × Nat :=
  match file with
  | none => ({ status := 400, contentType := none, body := "No file uploaded" }, 0)
  | some _ =>
    match upstream with
    | .throws => (relayError, 1)
    | .response _ body =>
      match body with
      | none => (relayError, 1)
      | some buffer => ({ status := 200, contentType := some "image/png", body := buffer }, 1)

/-- An upload used to exercise the relay. -/
def sampleUpload : UploadedFile := { data := "png bytes", name := "image.png" }

/-! ## Every event of the app -/

/-- The function `setHeadlineText(txt)` passes to `setLayers`. -/
def setHeadlineText (txt : String) (prev : List Layer) : List Layer :=
  prev.map fun l =>
    if l.type = "text" ∧ l.id = "text-headline" then
      { l with data := { l.data with text := some txt } }
    else l

/-- The function `setCtaText(txt)` passes to `setLayers`. -/
def setCtaText (txt : String) (prev : List Layer) : List Layer :=
  prev.map fun l =>
    if l.type = "text" ∧ l.id = "text-cta" then
      { l with data := { l.data with text := some txt } }
    else l

/-- The function `setHeadlineColor(color)` passes to `setLayers`. -/
def setHeadlineColor (color : String) (prev : List Layer) : List Layer :=
  prev.map fun l =>
    if l.type = "text" ∧ l.id = "text-headline" then
      { l with data := { l.data with fill := some color } }
    else l

/-- The function `setCtaColor(color)` passes to `setLayers`. -/
def setCtaColor (color : String) (prev : List Layer) : List Layer :=
  prev.map fun l =>
    if l.type = "text" ∧ l.id = "text-cta" then
      { l with data := { l.data with fill := some color } }
    else l

/-- The `onClick` of the headline's `A+` button. -/
def headlineFontUp (prev : List Layer) : List Layer :=
  prev.map fun l =>
    if l.id = "text-headline" then
      { l with data := { l.data with fontSize := some (orDefault l.data.fontSize 36 + 4) } }
    else l

/-- The `onClick` of the headline's `A-` button. -/
def headlineFontDown (prev : List Layer) : List Layer :=
  prev.map fun l =>
    if l.id = "text-headline" then
      { l with data := { l.data with
          fontSize := some (max 8 (orDefault l.data.fontSize 36 - 4)) } }
    else l

/-- The `onClick` of the call-to-action's `A+` button. -/
def ctaFontUp (prev : List Layer) : List Layer :=
  prev.map fun l =>
    if l.id = "text-cta" then
      { l with data := { l.data with fontSize := some (orDefault l.data.fontSize 24 + 2) } }
    else l

/-- The `onClick` of the call-to-action's `A-` button. -/
def ctaFontDown (prev : List Layer) : List Layer :=
  prev.map fun l =>
    if l.id = "text-cta" then
      { l with data := { l.data with
          fontSize := some (max 8 (orDefault l.data.fontSize 24 - 2)) } }
    else l

/-- Every event that writes `layers`, `selectedId`, `showPopup`,
`pendingAction` or `canvasSize`: the events of `UiOp`, the global actions
and the popup buttons, the late arrival of a background-removal result, the
sidebar controls of the two seeded layers and the canvas size buttons. -/
inductive AppOp where
  | ui (op : UiOp)
  | handleAction (action : String) (remote : Remote)
  | removeBGButton (remote : Remote)
  | popupChoose (imgId : String) (remote : Remote)
  | popupApply (imgId : String) (remote : Remote)
  | cancelPopup
  | removeBGArrives (id : String) (newUrl : String) (newBlob : String)
  | setHeadlineText (txt : String)
  | setCtaText (txt : String)
  | setHeadlineColor (color : String)
  | setCtaColor (color : String)
  | headlineFontUp
  | headlineFontDown
  | ctaFontUp
  | ctaFontDown
  | setCanvasSize (size : CanvasSize)
deriving DecidableEq

/-- One event of the app. -/
def appStep (s : Store) : AppOp → Store
  | .ui op => uiStep s op
  | .handleAction action remote => (handleAction action remote s).1
  | .removeBGButton remote => (removeBGButton remote s).1
  | .popupChoose imgId remote => (popupChoose imgId remote s).1
  | .popupApply imgId remote => (popupApply imgId remote s).1
  | .cancelPopup => cancelPopup s
  | .removeBGArrives id newUrl newBlob =>
    { s with layers := removeBGSuccess id newUrl newBlob s.layers }
  | .setHeadlineText txt => { s with layers := setHeadlineText txt s.layers }
  | .setCtaText txt => { s with layers := setCtaText txt s.layers }
  | .setHeadlineColor color => { s with layers := setHeadlineColor color s.layers }
  | .setCtaColor color => { s with layers := setCtaColor color s.layers }
  | .headlineFontUp => { s with layers := headlineFontUp s.layers }
  | .headlineFontDown => { s with layers := headlineFontDown s.layers }
  | .ctaFontUp => { s with layers := ctaFontUp s.layers }
  | .ctaFontDown => { s with layers := ctaFontDown s.layers }
  | .setCanvasSize size => { s with canvasSize := size }

/-- The store after a finite sequence of events of the app. -/
def appRun (s : Store) (ops : List AppOp) : Store := ops.foldl appStep s

/-- The stores the app can be in: those a finite sequence of events reaches
from the first render. -/
def Reachable (s : Store) : Prop := ∃ ops : List AppOp, appRun initialStore ops = s

/-! # Properties -/

/-! ## Lemmas on `findIndex` and `swapAt` -/

theorem findIndex_some_split (p : Layer → Bool) :
    ∀ (ls : List Layer) (i : Nat), findIndex p ls = some i →
      ∃ pre x post, ls = pre ++ x :: post ∧ pre.length = i ∧ p x = true ∧
        ∀ a ∈ pre, p a = false := by
  intro ls
  induction ls with
  | nil => intro i h; simp [findIndex] at h
  | cons l ls ih =>
    intro i h
    unfold findIndex at h
    by_cases hp : p l = true
    · simp only [hp, if_true, Option.some.injEq] at h
      exact ⟨[], l, ls, rfl, by simpa using h, hp, by simp⟩
    · simp only [hp] at h
      cases hf : findIndex p ls with
      | none => simp [hf] at h
      | some j =>
        have h : j + 1 = i := by simpa [hf] using h
        obtain ⟨pre, x, post, hls, hlen, hx, hpre⟩ := ih j hf
        refine ⟨l :: pre, x, post, by simp [hls], by simp [hlen, h], hx, ?_⟩
        intro a ha
        rcases List.mem_cons.mp ha with rfl | ha
        · simpa using hp
        · exact hpre a ha

theorem findIndex_none (p : Layer → Bool) :
    ∀ ls : List Layer, (∀ a ∈ ls, p a = false) → findIndex p ls = none := by
  intro ls
  induction ls with
  | nil => intro _; rfl
  | cons l ls ih =>
    intro h
    have hl : p l = false := h l (List.mem_cons_self _ _)
    have := ih (fun a ha => h a (List.mem_cons_of_mem _ ha))
    simp [findIndex, hl, this]

theorem findIndex_skip (p : Layer → Bool) (pre : List Layer) (x : Layer) (post : List Layer)
    (hpre : ∀ a ∈ pre, p a = false) (hx : p x = true) :
    findIndex p (pre ++ x :: post) = some pre.length := by
  induction pre with
  | nil => simp [findIndex, hx]
  | cons a pre ih =>
    have ha : p a = false := hpre a (List.mem_cons_self _ _)
    have := ih (fun b hb => hpre b (List.mem_cons_of_mem _ hb))
    simp [findIndex, ha, this]

theorem swapAt_getElem? (a : List Layer) (i j : Nat) (hi : i < a.length) (hj : j < a.length)
    (hij : i ≠ j) (k : Nat) :
    (swapAt a i j)[k]? = if k = i then a[j]? else if k = j then a[i]? else a[k]? := by
  unfold swapAt
  rw [List.getElem?_eq_getElem hi, List.getElem?_eq_getElem hj]
  simp only [List.getElem?_set, List.length_set]
  by_cases hkj : k = j
  · have hki : k ≠ i := fun h => hij (h.symm.trans hkj)
    simp [hkj, hj, Ne.symm hij]
  · by_cases hki : k = i
    · simp [hki, hi, Ne.symm hij, hij]
    · simp [hki, hkj, Ne.symm hki, Ne.symm hkj]

theorem swapAt_length (a : List Layer) (i j : Nat) : (swapAt a i j).length = a.length := by
  unfold swapAt
  split <;> simp

theorem swapAt_adjacent (pre : List Layer) (x y : Layer) (post : List Layer) :
    swapAt (pre ++ x :: y :: post) pre.length (pre.length + 1) = pre ++ y :: x :: post := by
  induction pre with
  | nil => simp [swapAt]
  | cons a pre ih =>
    have h := ih
    unfold swapAt at h ⊢
    simp only [List.cons_append, List.length_cons, List.getElem?_cons_succ] at h ⊢
    split at h
    · rename_i ai aj h1 h2
      simp only [h1, h2, List.set_cons_succ, h]
    · rename_i hne
      exfalso
      have h1 : pre.length < (pre ++ x :: y :: post).length := by simp
      have h2 : pre.length + 1 < (pre ++ x :: y :: post).length := by simp
      exact hne _ _ (List.getElem?_eq_getElem h1) (List.getElem?_eq_getElem h2)

theorem swapAt_comm (a : List Layer) (i j : Nat) (hi : i < a.length) (hj : j < a.length)
    (hij : i ≠ j) : swapAt a i j = swapAt a j i := by
  apply List.ext_getElem?
  intro k
  rw [swapAt_getElem? _ _ _ hi hj hij, swapAt_getElem? _ _ _ hj hi (Ne.symm hij)]
  by_cases h1 : k = i
  · subst h1; simp [hij]
  · by_cases h2 : k = j
    · subst h2; simp [h1]
    · simp [h1, h2]

/-! ## Lemmas on `moveLayer` -/

theorem moveLayer_up_split (id : String) (pre : List Layer) (x y : Layer) (post : List Layer)
    (hpre : ∀ a ∈ pre, a.id ≠ id) (hx : x.id = id) :
    moveLayer id "up" (pre ++ x :: y :: post) = pre ++ y :: x :: post := by
  have hf : findIndex (fun l => decide (l.id = id)) (pre ++ x :: y :: post) = some pre.length :=
    findIndex_skip _ pre x (y :: post) (fun a ha => by simpa using hpre a ha) (by simpa using hx)
  unfold moveLayer
  rw [hf]
  have hlt : pre.length < (pre ++ x :: y :: post).length - 1 := by simp
  simp only [hlt, and_self, if_true]
  exact swapAt_adjacent pre x y post

theorem moveLayer_up_last (id : String) (pre : List Layer) (x : Layer)
    (hpre : ∀ a ∈ pre, a.id ≠ id) (hx : x.id = id) :
    moveLayer id "up" (pre ++ [x]) = pre ++ [x] := by
  have hf : findIndex (fun l => decide (l.id = id)) (pre ++ [x]) = some pre.length :=
    findIndex_skip _ pre x [] (fun a ha => by simpa using hpre a ha) (by simpa using hx)
  unfold moveLayer
  rw [hf]
  simp

theorem moveLayer_down_split (id : String) (pre : List Layer) (w x : Layer) (post : List Layer)
    (hpre : ∀ a ∈ pre, a.id ≠ id) (hw : w.id ≠ id) (hx : x.id = id) :
    moveLayer id "down" (pre ++ w :: x :: post) = pre ++ x :: w :: post := by
  have hf : findIndex (fun l => decide (l.id = id)) ((pre ++ [w]) ++ x :: post)
      = some (pre ++ [w]).length :=
    findIndex_skip _ (pre ++ [w]) x post
      (fun a ha => by
        rcases List.mem_append.mp ha with h | h
        · simpa using hpre a h
        · simp only [List.mem_singleton] at h; subst h; simpa using hw)
      (by simpa using hx)
  simp only [List.append_assoc, List.singleton_append, List.length_append,
    List.length_singleton] at hf
  unfold moveLayer
  rw [hf]
  have hne : ¬ (("down" : String) = "up") := by decide
  simp only [hne, false_and, if_false, true_and, gt_iff_lt, Nat.succ_pos, if_true,
    Nat.add_sub_cancel]
  rw [swapAt_comm _ _ _ (by simp) (by simp) (by omega)]
  exact swapAt_adjacent pre w x post

theorem moveLayer_down_first (id : String) (x : Layer) (post : List Layer) (hx : x.id = id) :
    moveLayer id "down" (x :: post) = x :: post := by
  have hf : findIndex (fun l => decide (l.id = id)) (x :: post) = some 0 := by
    simp [findIndex, hx]
  unfold moveLayer
  rw [hf]
  have hne : ¬ (("down" : String) = "up") := by decide
  simp [hne]

theorem moveLayer_absent (id direction : String) (prev : List Layer)
    (h : ∀ a ∈ prev, a.id ≠ id) : moveLayer id direction prev = prev := by
  have hf : findIndex (fun l => decide (l.id = id)) prev = none :=
    findIndex_none _ prev (fun a ha => by simpa using h a ha)
  unfold moveLayer
  rw [hf]

theorem moveLayer_perm (id direction : String) (prev : List Layer) :
    (moveLayer id direction prev).Perm prev := by
  cases hf : findIndex (fun l => decide (l.id = id)) prev with
  | none => unfold moveLayer; rw [hf]
  | some idx =>
    obtain ⟨pre, x, post, hprev, hlen, hx, hpre⟩ := findIndex_some_split _ prev idx hf
    have hx' : x.id = id := by simpa using hx
    have hpre' : ∀ a ∈ pre, a.id ≠ id := fun a ha => by simpa using hpre a ha
    unfold moveLayer
    rw [hf]
    subst hprev
    subst hlen
    show (if direction = "up" ∧ pre.length < (pre ++ x :: post).length - 1 then
        swapAt (pre ++ x :: post) pre.length (pre.length + 1)
      else if direction = "down" ∧ pre.length > 0 then
        swapAt (pre ++ x :: post) pre.length (pre.length - 1)
      else pre ++ x :: post).Perm (pre ++ x :: post)
    by_cases hup : direction = "up" ∧ pre.length < (pre ++ x :: post).length - 1
    · rw [if_pos hup]
      cases post with
      | nil => simp at hup
      | cons y post =>
        rw [swapAt_adjacent]
        exact List.Perm.append_left pre (List.Perm.swap _ _ _)
    · rw [if_neg hup]
      by_cases hdown : direction = "down" ∧ pre.length > 0
      · rw [if_pos hdown]
        rcases List.eq_nil_or_concat pre with hnil | ⟨pre', w, hcat⟩
        · rw [hnil] at hdown; simp at hdown
        · rw [List.concat_eq_append] at hcat
          subst hcat
          have h1 : (pre' ++ [w]).length - 1 = pre'.length := by simp
          have h2 : (pre' ++ [w]).length = pre'.length + 1 := by simp
          rw [h1, h2, List.append_assoc, List.singleton_append,
            swapAt_comm _ _ _ (by simp) (by simp) (by omega), swapAt_adjacent]
          exact List.Perm.append_left pre' (List.Perm.swap _ _ _)
      · rw [if_neg hdown]

theorem findIndex_of_nodup (id : String) :
    ∀ (prev : List Layer) (i : Nat) (hi : i < prev.length), (layerIds prev).Nodup →
      prev[i].id = id → findIndex (fun l => decide (l.id = id)) prev = some i := by
  intro prev
  induction prev with
  | nil => intro i hi; simp at hi
  | cons l ls ih =>
    intro i hi hnd hid
    have hnd' : l.id ∉ layerIds ls ∧ (layerIds ls).Nodup := by
      simpa [layerIds] using hnd
    cases i with
    | zero =>
      have : l.id = id := by simpa using hid
      simp [findIndex, this]
    | succ j =>
      have hj : j < ls.length := by simpa using hi
      have hid' : ls[j].id = id := by simpa using hid
      have hne : l.id ≠ id := by
        intro h
        apply hnd'.1
        rw [h, ← hid']
        exact List.mem_map.mpr ⟨ls[j], List.getElem_mem hj, rfl⟩
      have := ih j hj hnd'.2 hid'
      simp [findIndex, hne, this]

/-! ## Steps keep the ids distinct -/

theorem layerIds_deleteLayer (id : String) (s : Store) :
    layerIds (deleteLayer id s).layers = (layerIds s.layers).filter (fun i => i ≠ id) := by
  simp only [deleteLayer, layerIds, List.filter_map]
  rfl

theorem step_nodup (s : Store) (op : Op) (hs : (layerIds s.layers).Nodup)
    (hfresh : ∀ i, op.newId = some i → i ∉ layerIds s.layers) :
    (layerIds (step s op).layers).Nodup := by
  cases op with
  | handleFile file url now =>
    cases file with
    | none => simpa [step, handleFile] using hs
    | some f =>
      have hnew : imageId now ∉ layerIds s.layers := hfresh _ rfl
      simp only [step, handleFile, layerIds, List.map_append, List.map_cons, List.map_nil]
      refine List.nodup_append.mpr ⟨hs, List.nodup_singleton _, ?_⟩
      intro a ha hb
      rw [List.mem_singleton] at hb
      subst hb
      exact hnew ha
  | addTextLayer opts now =>
    have hnew : textId now ∉ layerIds s.layers := hfresh _ rfl
    simp only [step, addTextLayer, layerIds, List.map_append, List.map_cons, List.map_nil]
    refine List.nodup_append.mpr ⟨hs, List.nodup_singleton _, ?_⟩
    intro a ha hb
    rw [List.mem_singleton] at hb
    exact hnew (hb ▸ ha)
  | deleteLayer id =>
    show (layerIds (deleteLayer id s).layers).Nodup
    rw [layerIds_deleteLayer]
    exact hs.filter _
  | moveLayer id direction =>
    show (layerIds (moveLayer id direction s.layers)).Nodup
    exact ((moveLayer_perm id direction s.layers).map _).nodup_iff.mpr hs

theorem run_nodup : ∀ (ops : List Op) (s : Store), (layerIds s.layers).Nodup →
    freshRun s ops = true → (layerIds (run s ops).layers).Nodup := by
  intro ops
  induction ops with
  | nil => intro s hs _; simpa [run] using hs
  | cons op ops ih =>
    intro s hs hf
    simp only [freshRun, Bool.and_eq_true] at hf
    have hstep : (layerIds (step s op).layers).Nodup := by
      apply step_nodup s op hs
      intro i hi
      have h1 := hf.1
      rw [hi] at h1
      simpa using h1
    have := ih (step s op) hstep hf.2
    simpa [run] using this

/-! ## C1 -/

/-- C1, as the spec states it, fails: two uploads that read the same
`Date.now()` value get the same id `image-1000`, so the ids of a reachable
array are not always distinct. -/
theorem c1_duplicate_ids_reachable :
    ¬ (layerIds (run initialStore
        [Op.handleFile (some "a.png") "blob:a" 1000,
         Op.handleFile (some "b.png") "blob:b" 1000]).layers).Nodup := by
  decide

/-- C1, amended: from the two seeded text layers, every finite run of
`handleFile`, `addTextLayer`, `deleteLayer` and `moveLayer` steps in which each
adding step draws an id not already in the array ends in an array with
pairwise distinct ids; every `moveLayer` step yields a permutation of the ids
before it, and every `deleteLayer` step yields the ids before it without the
deleted id. -/
theorem c1_ids_distinct_when_adds_fresh :
    (∀ ops : List Op, freshRun initialStore ops = true →
        (layerIds (run initialStore ops).layers).Nodup) ∧
    (∀ (id direction : String) (prev : List Layer),
        (layerIds (moveLayer id direction prev)).Perm (layerIds prev)) ∧
    (∀ (id : String) (s : Store),
        layerIds (deleteLayer id s).layers = (layerIds s.layers).filter (fun i => i ≠ id)) :=
  ⟨fun ops h => run_nodup ops initialStore (by decide) h,
   fun id direction prev => (moveLayer_perm id direction prev).map _,
   fun id s => layerIds_deleteLayer id s⟩

/-- C1, amended, on a run that adds an image and a text layer at the same
clock value, reorders and deletes. -/
theorem c1_ids_distinct_when_adds_fresh_witness :
    freshRun initialStore
        [Op.handleFile (some "a.png") "blob:a" 1000,
         Op.addTextLayer ⟨some "New Heading", none, none, some 40, none, none⟩ 1000,
         Op.moveLayer "image-1000" "down", Op.deleteLayer "text-cta",
         Op.handleFile (some "b.png") "blob:b" 1001] = true ∧
    (layerIds (run initialStore
        [Op.handleFile (some "a.png") "blob:a" 1000,
         Op.addTextLayer ⟨some "New Heading", none, none, some 40, none, none⟩ 1000,
         Op.moveLayer "image-1000" "down", Op.deleteLayer "text-cta",
         Op.handleFile (some "b.png") "blob:b" 1001]).layers).Nodup :=
  ⟨by decide, c1_ids_distinct_when_adds_fresh.1 _ (by decide)⟩

/-! ## C2 -/

/-- C2: in an array with distinct ids, for the layer at index `i` with the
given id, `moveLayer(id, "up")` exchanges the elements at `i` and `i + 1` and
keeps every other element in place when `i` is not the last index, and
returns the array unchanged when it is; `moveLayer(id, "down")` exchanges the
elements at `i` and `i - 1` when `i > 0` and returns the array unchanged when
`i = 0`; for an id that is not in the array both return it unchanged. -/
theorem c2_moveLayer_swaps_neighbour (prev : List Layer) (id : String)
    (hnd : (layerIds prev).Nodup) :
    (∀ (i : Nat) (hi : i < prev.length), prev[i].id = id →
      (i + 1 < prev.length → ∀ k : Nat, (moveLayer id "up" prev)[k]? =
          if k = i then prev[i + 1]? else if k = i + 1 then prev[i]? else prev[k]?) ∧
      (i + 1 = prev.length → moveLayer id "up" prev = prev) ∧
      (0 < i → ∀ k : Nat, (moveLayer id "down" prev)[k]? =
          if k = i then prev[i - 1]? else if k = i - 1 then prev[i]? else prev[k]?) ∧
      (i = 0 → moveLayer id "down" prev = prev)) ∧
    ((∀ l ∈ prev, l.id ≠ id) →
      moveLayer id "up" prev = prev ∧ moveLayer id "down" prev = prev) := by
  have hne : ¬ (("down" : String) = "up") := by decide
  refine ⟨?_, fun h => ⟨moveLayer_absent id "up" prev h, moveLayer_absent id "down" prev h⟩⟩
  intro i hi hid
  have hf := findIndex_of_nodup id prev i hi hnd hid
  refine ⟨?_, ?_, ?_, ?_⟩
  · intro hlt k
    have h1 : i < prev.length - 1 := by omega
    unfold moveLayer
    rw [hf]
    simp only [h1, and_self, if_true]
    exact swapAt_getElem? prev i (i + 1) hi hlt (by omega) k
  · intro hlast
    have h1 : ¬ i < prev.length - 1 := by omega
    unfold moveLayer
    rw [hf]
    simp [h1, hne]
  · intro hpos k
    unfold moveLayer
    rw [hf]
    simp only [hne, false_and, if_false, true_and, gt_iff_lt, hpos, if_true]
    exact swapAt_getElem? prev i (i - 1) hi (by omega) (by omega) k
  · intro h0
    unfold moveLayer
    rw [hf]
    simp [h0, hne]

/-- C2 on the seeded array: moving the headline up puts the call-to-action
layer at index 0, and an unknown id leaves the array as it is. -/
theorem c2_moveLayer_swaps_neighbour_witness :
    (layerIds seededLayers).Nodup ∧
    (moveLayer "text-headline" "up" seededLayers)[0]? = seededLayers[1]? ∧
    moveLayer "image-7" "up" seededLayers = seededLayers :=
  ⟨by decide,
   ((c2_moveLayer_swaps_neighbour seededLayers "text-headline" (by decide)).1 0
      (by decide) (by decide)).1 (by decide) 0,
   ((c2_moveLayer_swaps_neighbour seededLayers "image-7" (by decide)).2 (by decide)).1⟩

/-! ## C3 -/

/-- C3, as the spec states it, fails: with a selection that names no layer
(`text-9`, a text layer deleted before its delayed selection fired),
`deleteLayer("text-9")` finds no such layer and still clears the selection, so
the state is not left unchanged. -/
theorem c3_absent_id_still_clears_selection :
    "text-9" ∉ layerIds ({ initialStore with selectedId := some "text-9" } : Store).layers ∧
    deleteLayer "text-9" { initialStore with selectedId := some "text-9" }
      ≠ { initialStore with selectedId := some "text-9" } ∧
    (deleteLayer "text-9" { initialStore with selectedId := some "text-9" }).selectedId = none := by
  decide

/-- C3, amended: `deleteLayer(id)` keeps, in their order and multiplicity,
exactly the layers whose id differs from `id`; `selectedId` becomes null when
it was equal to `id` and is unchanged otherwise; the other state cells are
untouched; when `id` is not in `layers` the array is unchanged, and the whole
state is unchanged provided `selectedId` is not `id`. -/
theorem c3_deleteLayer_removes_id (id : String) (s : Store) :
    (deleteLayer id s).layers.Sublist s.layers ∧
    (∀ l ∈ (deleteLayer id s).layers, l.id ≠ id) ∧
    (∀ l : Layer, l.id ≠ id → (deleteLayer id s).layers.count l = s.layers.count l) ∧
    (s.selectedId = some id → (deleteLayer id s).selectedId = none) ∧
    (s.selectedId ≠ some id → (deleteLayer id s).selectedId = s.selectedId) ∧
    (deleteLayer id s).canvasSize = s.canvasSize ∧
    (deleteLayer id s).showPopup = s.showPopup ∧
    (deleteLayer id s).pendingAction = s.pendingAction ∧
    ((∀ l ∈ s.layers, l.id ≠ id) →
      (deleteLayer id s).layers = s.layers ∧ (s.selectedId ≠ some id → deleteLayer id s = s)) := by
  refine ⟨List.filter_sublist _, ?_, ?_, ?_, ?_, rfl, rfl, rfl, ?_⟩
  · intro l hl
    have := (List.mem_filter.mp hl).2
    simpa using this
  · intro l hl
    exact List.count_filter (by simpa using hl)
  · intro h
    simp [deleteLayer, h]
  · intro h
    simp [deleteLayer, h]
  · intro h
    have hl : s.layers.filter (fun l => decide (l.id ≠ id)) = s.layers :=
      List.filter_eq_self.mpr (fun l hl => by simpa using h l hl)
    refine ⟨hl, fun hsel => ?_⟩
    cases s with
    | mk layers canvasSize selectedId showPopup pendingAction =>
      simp only [deleteLayer] at hl ⊢
      simp only [ne_eq] at hsel
      simp only [hl, hsel, if_false]

/-- C3, amended, on the seeded store: deleting the selected call-to-action
layer clears the selection, and deleting an id that is neither present nor
selected changes nothing. -/
theorem c3_deleteLayer_removes_id_witness :
    (deleteLayer "text-cta" { initialStore with selectedId := some "text-cta" }).selectedId = none ∧
    deleteLayer "image-9" initialStore = initialStore :=
  ⟨(c3_deleteLayer_removes_id "text-cta" { initialStore with selectedId := some "text-cta" }).2.2.2.1
      rfl,
   ((c3_deleteLayer_removes_id "image-9" initialStore).2.2.2.2.2.2.2.2 (by decide)).2 (by decide)⟩

/-! ## C4 -/

theorem transformLayerScale_getElem? (id : String) (delta : ℚ) (ls : List Layer) (i : Nat) :
    (transformLayerScale id delta ls)[i]? = ls[i]?.map (fun l =>
      if l.id = id ∧ l.type = "image" then
        { l with data := { l.data with
            scale := some (max (1/5) (orDefault l.data.scale 1 + delta)) } }
      else l) := by
  simp [transformLayerScale]

theorem scaleBySeq_keeps_target (id : String) (deltas : List ℚ) :
    ∀ (ls : List Layer) (i : Nat) (l : Layer), ls[i]? = some l → l.id = id → l.type = "image" →
      ∃ l', (scaleBySeq id deltas ls)[i]? = some l' ∧ l'.id = id ∧ l'.type = "image" := by
  induction deltas with
  | nil => intro ls i l h hid hty; exact ⟨l, by simpa [scaleBySeq] using h, hid, hty⟩
  | cons d ds ih =>
    intro ls i l h hid hty
    have hstep : (transformLayerScale id d ls)[i]? = some
        { l with data := { l.data with
            scale := some (max (1/5) (orDefault l.data.scale 1 + d)) } } := by
      rw [transformLayerScale_getElem?, h, Option.map_some', if_pos ⟨hid, hty⟩]
    obtain ⟨l', hl', h1, h2⟩ := ih (transformLayerScale id d ls) i _ hstep hid hty
    exact ⟨l', by simpa [scaleBySeq] using hl', h1, h2⟩

/-- C4: for an image layer with the target id, whatever scale it stores
(missing, zero, negative or below 0.2), and for every non-empty sequence of
deltas, the layer is still at its index after `transformLayerScale` has run
with each delta in turn, and the scale it then stores is at least 0.2. -/
theorem c4_scale_floor_after_deltas (layers : List Layer) (id : String) (deltas : List ℚ)
    (hne : deltas ≠ []) (i : Nat) (l : Layer) (hl : layers[i]? = some l) (hid : l.id = id)
    (hty : l.type = "image") :
    ∃ l' sc, (scaleBySeq id deltas layers)[i]? = some l' ∧ l'.id = id ∧ l'.type = "image" ∧
      l'.data.scale = some sc ∧ (1/5 : ℚ) ≤ sc := by
  rcases List.eq_nil_or_concat deltas with hnil | ⟨ds, d, hcat⟩
  · exact absurd hnil hne
  · rw [List.concat_eq_append] at hcat
    subst hcat
    obtain ⟨m, hm, hmid, hmty⟩ := scaleBySeq_keeps_target id ds layers i l hl hid hty
    have hstep : (transformLayerScale id d (scaleBySeq id ds layers))[i]? = some
        { m with data := { m.data with
            scale := some (max (1/5) (orDefault m.data.scale 1 + d)) } } := by
      rw [transformLayerScale_getElem?, hm, Option.map_some', if_pos ⟨hmid, hmty⟩]
    have hfold : scaleBySeq id (ds ++ [d]) layers
        = transformLayerScale id d (scaleBySeq id ds layers) := by
      simp [scaleBySeq, List.foldl_append]
    rw [hfold]
    exact ⟨_, max (1/5) (orDefault m.data.scale 1 + d), hstep, hmid, hmty, rfl, le_max_left _ _⟩

/-- C4 on an image layer that stores scale 0, zoomed by -1000 and then by
-0.1. -/
theorem c4_scale_floor_after_deltas_witness :
    ∃ l' sc,
      (scaleBySeq "image-1" [-1000, -(1/10)]
        [{ id := "image-1", type := "image",
           data := { src := some "blob:a", blob := some "a.png", x := some 540, y := some 540,
                     scale := some 0, rotation := some 0, text := none, fontSize := none,
                     fill := none, fontStyle := none, draggable := none } }])[0]? = some l' ∧
      l'.id = "image-1" ∧ l'.type = "image" ∧ l'.data.scale = some sc ∧ (1/5 : ℚ) ≤ sc :=
  c4_scale_floor_after_deltas _ "image-1" [-1000, -(1/10)] (by simp) 0 _ rfl rfl rfl

/-! ## Lemmas on the id-keyed maps -/

theorem ids_index_unique (ls : List Layer) (hnd : (layerIds ls).Nodup) {i j : Nat}
    {a b : Layer} (hi : ls[i]? = some a) (hj : ls[j]? = some b) (hab : a.id = b.id) : i = j := by
  obtain ⟨hi', rfl⟩ := List.getElem?_eq_some.mp hi
  obtain ⟨hj', rfl⟩ := List.getElem?_eq_some.mp hj
  have hli : i < (layerIds ls).length := by simpa [layerIds] using hi'
  have hlj : j < (layerIds ls).length := by simpa [layerIds] using hj'
  have h : (layerIds ls)[i] = (layerIds ls)[j] := by simpa [layerIds] using hab
  exact (hnd.getElem_inj_iff).mp h

theorem map_on_target (f : Layer → Layer) (k : String) (ls : List Layer)
    (hnd : (layerIds ls).Nodup) (i : Nat) (img : Layer) (hi : ls[i]? = some img)
    (hk : img.id = k) (hty : img.type = "image") (j : Nat) :
    (ls.map (fun l => if l.id = k ∧ l.type = "image" then f l else l))[j]? =
      if j = i then some (f img) else ls[j]? := by
  rw [List.getElem?_map]
  by_cases hji : j = i
  · subst hji
    rw [hi, Option.map_some', if_pos ⟨hk, hty⟩, if_pos rfl]
  · rw [if_neg hji]
    cases hj : ls[j]? with
    | none => rfl
    | some b =>
      have hb : b.id ≠ k := by
        intro hbk
        exact hji (ids_index_unique ls hnd hj hi (hbk.trans hk.symm))
      rw [Option.map_some', if_neg (fun h => hb h.1)]

theorem transformLayerScale_on_target (k : String) (delta : ℚ) (ls : List Layer)
    (hnd : (layerIds ls).Nodup) (i : Nat) (img : Layer) (hi : ls[i]? = some img)
    (hk : img.id = k) (hty : img.type = "image") (j : Nat) :
    (transformLayerScale k delta ls)[j]? =
      if j = i then some (scaledBy delta img) else ls[j]? :=
  map_on_target (scaledBy delta) k ls hnd i img hi hk hty j

theorem transformLayerRotate_on_target (k : String) (delta : ℚ) (ls : List Layer)
    (hnd : (layerIds ls).Nodup) (i : Nat) (img : Layer) (hi : ls[i]? = some img)
    (hk : img.id = k) (hty : img.type = "image") (j : Nat) :
    (transformLayerRotate k delta ls)[j]? =
      if j = i then some (rotatedBy delta img) else ls[j]? :=
  map_on_target (rotatedBy delta) k ls hnd i img hi hk hty j

theorem find?_of_filter_singleton (p : Layer → Bool) (x : Layer) :
    ∀ ls : List Layer, ls.filter p = [x] → ls.find? p = some x := by
  intro ls
  induction ls with
  | nil => intro h; simp at h
  | cons a ls ih =>
    intro h
    by_cases hp : p a = true
    · rw [List.filter_cons_of_pos hp] at h
      rw [List.find?_cons_of_pos _ hp]
      exact congrArg some (List.cons.inj h).1
    · rw [List.filter_cons_of_neg hp] at h
      rw [List.find?_cons_of_neg _ hp]
      exact ih h

theorem applyAction_layers (a k : String) (remote : Remote) (s : Store)
    (hnd : (layerIds s.layers).Nodup) (i : Nat) (img : Layer) (hi : s.layers[i]? = some img)
    (hk : img.id = k) (hty : img.type = "image") (hne : k ≠ "")
    (ha : a = "zoom+" ∨ a = "zoom-" ∨ a = "rotateL" ∨ a = "rotateR") :
    (applyAction a k remote s).1.showPopup = false ∧
    (applyAction a k remote s).1.pendingAction = none ∧
    (applyAction a k remote s).2 = [] ∧
    ∀ j : Nat, (applyAction a k remote s).1.layers[j]? =
      if j = i then some (actionOn a img) else s.layers[j]? := by
  rcases ha with rfl | rfl | rfl | rfl
  · refine ⟨by simp [applyAction, hne], by simp [applyAction, hne], by simp [applyAction, hne], ?_⟩
    intro j
    have := transformLayerScale_on_target k (1/10) s.layers hnd i img hi hk hty j
    simpa [applyAction, hne, actionOn] using this
  · refine ⟨by simp [applyAction, hne], by simp [applyAction, hne], by simp [applyAction, hne], ?_⟩
    intro j
    have := transformLayerScale_on_target k (-(1/10)) s.layers hnd i img hi hk hty j
    simpa [applyAction, hne, actionOn] using this
  · refine ⟨by simp [applyAction, hne], by simp [applyAction, hne], by simp [applyAction, hne], ?_⟩
    intro j
    have := transformLayerRotate_on_target k (-15) s.layers hnd i img hi hk hty j
    simpa [applyAction, hne, actionOn] using this
  · refine ⟨by simp [applyAction, hne], by simp [applyAction, hne], by simp [applyAction, hne], ?_⟩
    intro j
    have := transformLayerRotate_on_target k 15 s.layers hnd i img hi hk hty j
    simpa [applyAction, hne, actionOn] using this

/-! ## Global actions on a store whose image layers have non-empty ids -/

/-- In a store with distinct layer ids whose image layers have non-empty ids,
for each of `zoom+`, `zoom-`, `rotateL`, `rotateR` issued through
`handleAction`: with no image layer the array is unchanged; with exactly one
image layer the action is applied to it at once, every other layer is
unchanged and the popup is not shown; with two or more, the array is
unchanged, the popup is shown and the action is recorded as pending, and then
either button of the popup row of an image layer applies the action to that
layer and leaves every other layer unchanged. -/
theorem handleAction_targets_one_image_of_ids (s : Store) (a : String) (remote : Remote)
    (hnd : (layerIds s.layers).Nodup)
    (hids : ∀ l ∈ s.layers, l.type = "image" → l.id ≠ "")
    (ha : a = "zoom+" ∨ a = "zoom-" ∨ a = "rotateL" ∨ a = "rotateR") :
    ((imageLayers s.layers).length = 0 → (handleAction a remote s).1.layers = s.layers) ∧
    (∀ (i : Nat) (img : Layer), s.layers[i]? = some img → imageLayers s.layers = [img] →
      (handleAction a remote s).1.showPopup = false ∧
      ∀ j : Nat, (handleAction a remote s).1.layers[j]? =
        if j = i then some (actionOn a img) else s.layers[j]?) ∧
    (2 ≤ (imageLayers s.layers).length →
      (handleAction a remote s).1.layers = s.layers ∧
      (handleAction a remote s).1.showPopup = true ∧
      (handleAction a remote s).1.pendingAction = some a ∧
      ∀ (i : Nat) (img : Layer), s.layers[i]? = some img → img.type = "image" →
        ∀ j : Nat,
          (popupChoose img.id remote (handleAction a remote s).1).1.layers[j]? =
            (if j = i then some (actionOn a img) else s.layers[j]?) ∧
          (popupApply img.id remote (handleAction a remote s).1).1.layers[j]? =
            (if j = i then some (actionOn a img) else s.layers[j]?)) := by
  have hane : a ≠ "" := by
    rcases ha with rfl | rfl | rfl | rfl <;> decide
  refine ⟨?_, ?_, ?_⟩
  · intro h0
    have h0' : (s.layers.filter fun l => decide (l.type = "image")).length = 0 := h0
    simp [handleAction, h0']
  · intro i img hi hone
    have hone' : (s.layers.filter fun l => decide (l.type = "image")) = [img] := hone
    have hfind := find?_of_filter_singleton _ img s.layers hone'
    have hmem : img ∈ s.layers.filter fun l => decide (l.type = "image") := by
      rw [hone']; exact List.mem_singleton_self _
    have hty : img.type = "image" := by simpa using (List.mem_filter.mp hmem).2
    have hne : img.id ≠ "" := hids img (List.mem_filter.mp hmem).1 hty
    have happ := applyAction_layers a img.id remote { s with pendingAction := some a }
      hnd i img hi rfl hty hne ha
    have hrun : handleAction a remote s
        = applyAction a img.id remote { s with pendingAction := some a } := by
      simp [handleAction, hone', hfind]
    rw [hrun]
    exact ⟨happ.1, happ.2.2.2⟩
  · intro h2
    have h2' : 2 ≤ (s.layers.filter fun l => decide (l.type = "image")).length := h2
    have hrun : handleAction a remote s
        = ({ s with pendingAction := some a, showPopup := true }, []) := by
      have hn0 : (s.layers.filter fun l => decide (l.type = "image")).length ≠ 0 := by omega
      have hn1 : (s.layers.filter fun l => decide (l.type = "image")).length ≠ 1 := by omega
      simp [handleAction, hn0, hn1]
    rw [hrun]
    refine ⟨rfl, rfl, rfl, ?_⟩
    intro i img hi hty j
    have hne : img.id ≠ "" := hids img (List.getElem?_mem hi) hty
    have happ := applyAction_layers a img.id remote
      { s with pendingAction := some a, showPopup := true } hnd i img hi rfl hty hne ha
    have hc : orDefaultStr (some a) "zoom+" = a := by simp [orDefaultStr, hane]
    have hd : orDefaultStr (some a) "removeBG" = a := by simp [orDefaultStr, hane]
    constructor
    · show (applyAction (orDefaultStr (some a) "zoom+") img.id remote _).1.layers[j]? = _
      rw [hc]
      exact happ.2.2.2 j
    · show (applyAction (orDefaultStr (some a) "removeBG") img.id remote _).1.layers[j]? = _
      rw [hd]
      exact happ.2.2.2 j

/-! ## C6 -/

/-- C6 fails on the code: in the seeded store, which has no image layer, the
`Remove BG` button shows the popup and leaves `removeBG` pending, and
`handleAction("zoom+")` leaves `zoom+` in the pending slot; only the layers
array is left as it was. -/
theorem c6_no_image_layer_is_not_a_noop (remote : Remote) :
    imageLayers initialStore.layers = [] ∧
    (removeBGButton remote initialStore).1.layers = initialStore.layers ∧
    (removeBGButton remote initialStore).1.showPopup = true ∧
    (removeBGButton remote initialStore).1.pendingAction = some "removeBG" ∧
    (handleAction "zoom+" remote initialStore).1.layers = initialStore.layers ∧
    (handleAction "zoom+" remote initialStore).1.showPopup = false ∧
    (handleAction "zoom+" remote initialStore).1.pendingAction = some "zoom+" := by
  refine ⟨by decide, ?_, ?_, ?_, ?_, ?_, ?_⟩ <;> rfl

/-! ## C7 -/

/-- C7: the update `removeBG` applies on success keeps the length and the
order of the array; a layer whose id differs from the target is unchanged; a
layer with the target id keeps its id, type, x, y, scale, rotation and every
other data field and gets the returned `src` and `blob`; when no layer has the
target id the array is unchanged, so no layer is created. -/
theorem c7_removeBG_success_frame (prev : List Layer) (id newUrl newBlob : String) :
    (removeBGSuccess id newUrl newBlob prev).length = prev.length ∧
    layerIds (removeBGSuccess id newUrl newBlob prev) = layerIds prev ∧
    (∀ (j : Nat) (l : Layer), prev[j]? = some l →
      ∃ l', (removeBGSuccess id newUrl newBlob prev)[j]? = some l' ∧
        (l.id ≠ id → l' = l) ∧
        (l.id = id →
          l'.id = l.id ∧ l'.type = l.type ∧ l'.data.x = l.data.x ∧ l'.data.y = l.data.y ∧
          l'.data.scale = l.data.scale ∧ l'.data.rotation = l.data.rotation ∧
          l'.data.text = l.data.text ∧ l'.data.fontSize = l.data.fontSize ∧
          l'.data.fill = l.data.fill ∧ l'.data.fontStyle = l.data.fontStyle ∧
          l'.data.draggable = l.data.draggable ∧
          l'.data.src = some newUrl ∧ l'.data.blob = some newBlob)) ∧
    ((∀ l ∈ prev, l.id ≠ id) → removeBGSuccess id newUrl newBlob prev = prev) := by
  refine ⟨by simp [removeBGSuccess], ?_, ?_, ?_⟩
  · simp only [removeBGSuccess, layerIds, List.map_map]
    apply List.map_congr_left
    intro l _
    by_cases h : l.id = id <;> simp [h]
  · intro j l hl
    by_cases h : l.id = id
    · refine ⟨{ l with data := { l.data with src := some newUrl, blob := some newBlob } }, ?_,
        fun hne => absurd h hne, fun _ => ?_⟩
      · simp only [removeBGSuccess, List.getElem?_map, hl, Option.map_some', if_pos h]
      · exact ⟨rfl, rfl, rfl, rfl, rfl, rfl, rfl, rfl, rfl, rfl, rfl, rfl, rfl⟩
    · refine ⟨l, ?_, fun _ => rfl, fun he => absurd he h⟩
      simp only [removeBGSuccess, List.getElem?_map, hl, Option.map_some', if_neg h]
  · intro habs
    unfold removeBGSuccess
    conv => rhs; rw [← List.map_id prev]
    apply List.map_congr_left
    intro l hl
    simp [habs l hl]

/-- C7 on the store with one uploaded image: a result for `image-1000` leaves
the headline layer unchanged, and a result for an id that is gone leaves the
whole array unchanged. -/
theorem c7_removeBG_success_frame_witness :
    (removeBGSuccess "image-1000" "blob:r" "removed.png" oneImageStore.layers)[0]?
      = some headlineLayer ∧
    removeBGSuccess "image-7" "blob:r" "removed.png" oneImageStore.layers
      = oneImageStore.layers := by
  obtain ⟨l', h, hne, _⟩ :=
    (c7_removeBG_success_frame oneImageStore.layers "image-1000" "blob:r" "removed.png").2.2.1
      0 headlineLayer rfl
  have hl : l' = headlineLayer := hne (by decide)
  exact ⟨hl ▸ h,
    (c7_removeBG_success_frame oneImageStore.layers "image-7" "blob:r" "removed.png").2.2.2
      (by decide)⟩

/-! ## C8 -/

/-- C8: when `id` names an image layer (the layer `layers.find` returns for it
is of type `image`) and the call to the relay fails, by a rejected `fetch`, a
non-success status or an unreadable body, `removeBG` leaves the store as it
was, raises the failure notice exactly once and sends at most one request
(exactly one, followed by the notice, when the layer stores a blob); when no
layer has the id, or the layer found is not an image layer, it sends no
request, raises no notice and leaves the store unchanged. -/
theorem c8_removeBG_failure_keeps_store (s : Store) (id : String) (remote : Remote) :
    (∀ layer : Layer, s.layers.find? (fun l => decide (l.id = id)) = some layer →
      layer.type = "image" → remote.failed = true →
        (removeBG id remote s).1 = s ∧
        alertCount (removeBG id remote s).2 = 1 ∧
        requestCount (removeBG id remote s).2 ≤ 1 ∧
        (∀ b : String, layer.data.blob = some b →
          (removeBG id remote s).2
            = [Event.request b, Event.consoleError, Event.alert "Remove BG failed!"])) ∧
    ((∀ l ∈ s.layers, l.id ≠ id) → removeBG id remote s = (s, [])) ∧
    (∀ layer : Layer, s.layers.find? (fun l => decide (l.id = id)) = some layer →
      layer.type ≠ "image" → removeBG id remote s = (s, [])) := by
  refine ⟨?_, ?_, ?_⟩
  · intro layer hfind hty hfail
    unfold removeBG
    rw [hfind]
    simp only [hty, ne_eq, not_true_eq_false, if_false]
    cases hb : layer.data.blob with
    | none =>
      refine ⟨rfl, by simp [alertCount, removeBGCatch], by simp [requestCount, removeBGCatch],
        fun b hb' => by simp at hb'⟩
    | some b =>
      cases remote with
      | transportError =>
        refine ⟨rfl, by simp [alertCount, removeBGCatch], by simp [requestCount, removeBGCatch],
          fun b' hb' => by simp at hb'; simp [hb', removeBGCatch]⟩
      | response ok body url =>
        cases ok with
        | false =>
          refine ⟨rfl, by simp [alertCount, removeBGCatch],
            by simp [requestCount, removeBGCatch],
            fun b' hb' => by simp at hb'; simp [hb', removeBGCatch]⟩
        | true =>
          cases body with
          | none =>
            refine ⟨rfl, by simp [alertCount, removeBGCatch],
              by simp [requestCount, removeBGCatch],
              fun b' hb' => by simp at hb'; simp [hb', removeBGCatch]⟩
          | some nb => simp [Remote.failed] at hfail
  · intro habs
    have hnone : s.layers.find? (fun l => decide (l.id = id)) = none :=
      List.find?_eq_none.mpr (fun l hl => by simpa using habs l hl)
    unfold removeBG
    rw [hnone]
  · intro layer hfind hty
    unfold removeBG
    rw [hfind]
    simp [hty]

/-- C8 on the store with one uploaded image: a non-success answer for
`image-1000` leaves the store as it was with one request and one notice, and
`removeBG` on the text layer `text-cta` does nothing. -/
theorem c8_removeBG_failure_keeps_store_witness :
    (removeBG "image-1000" (Remote.response false none "") oneImageStore).1 = oneImageStore ∧
    alertCount (removeBG "image-1000" (Remote.response false none "") oneImageStore).2 = 1 ∧
    requestCount (removeBG "image-1000" (Remote.response false none "") oneImageStore).2 ≤ 1 ∧
    removeBG "text-cta" (Remote.response false none "") oneImageStore = (oneImageStore, []) := by
  obtain ⟨h1, h2, h3, _⟩ :=
    (c8_removeBG_failure_keeps_store oneImageStore "image-1000" (Remote.response false none "")).1
      (newImageLayer "a.png" "blob:a" 1000 initialStore.canvasSize) rfl rfl rfl
  exact ⟨h1, h2, h3,
    (c8_removeBG_failure_keeps_store oneImageStore "text-cta" (Remote.response false none "")).2.2
      ctaLayer rfl (by decide)⟩

/-! ## C9 -/

theorem imageId_ne_empty (now : Nat) : imageId now ≠ "" := by
  intro h
  have hlen := congrArg String.length h
  simp only [imageId, String.length_append] at hlen
  have h6 : ("image-" : String).length = 6 := by decide
  have h0 : ("" : String).length = 0 := by decide
  omega

theorem afterZoom1_eq (c : Scenario) :
    c.afterZoom1 = { initialStore with
      layers := [headlineLayer, ctaLayer, withScaleRotation c.image1 (11/10) 0] } := by
  have hne := imageId_ne_empty c.now1
  simp [Scenario.afterZoom1, Scenario.afterUpload1, handleAction, handleFile, initialStore,
    seededLayers, headlineLayer, ctaLayer, newImageLayer, applyAction, hne,
    transformLayerScale, orDefault, withScaleRotation, Scenario.image1]
  norm_num

theorem afterRotate_eq (c : Scenario) :
    c.afterRotate = { initialStore with
      layers := [headlineLayer, ctaLayer, withScaleRotation c.image1 (11/10) (-15)] } := by
  have hne := imageId_ne_empty c.now1
  rw [Scenario.afterRotate, afterZoom1_eq]
  simp [handleAction, initialStore, headlineLayer, ctaLayer, newImageLayer, applyAction, hne,
    transformLayerRotate, orDefault, withScaleRotation, Scenario.image1]

theorem afterZoom2_eq (c : Scenario) :
    c.afterZoom2 = { initialStore with
      layers := [headlineLayer, ctaLayer, withScaleRotation c.image1 (11/10) (-15), c.image2],
      showPopup := true, pendingAction := some "zoom+" } := by
  rw [Scenario.afterZoom2, Scenario.afterUpload2, afterRotate_eq]
  simp [handleAction, handleFile, initialStore, headlineLayer, ctaLayer, newImageLayer,
    withScaleRotation, Scenario.image1, Scenario.image2]

theorem afterChoice_eq (c : Scenario) (hdist : imageId c.now1 ≠ imageId c.now2) :
    c.afterChoice = { initialStore with
      layers := [headlineLayer, ctaLayer, withScaleRotation c.image1 (11/10) (-15),
                 withScaleRotation c.image2 (11/10) 0] } := by
  have hne := imageId_ne_empty c.now2
  rw [Scenario.afterChoice, afterZoom2_eq]
  simp [popupChoose, orDefaultStr, initialStore, headlineLayer, ctaLayer, newImageLayer,
    applyAction, hne, hdist, transformLayerScale, orDefault, withScaleRotation, Scenario.image1,
    Scenario.image2]
  norm_num

/-- C9: from the two seeded text layers, after one upload (scale 1, rotation
0) `handleAction("zoom+")` makes the image's scale 11/10 with the popup hidden;
`handleAction("rotateL")` makes its rotation -15; after a second upload with a
distinct id `handleAction("zoom+")` changes no layer, shows the popup and
leaves `zoom+` pending; choosing the second image sets only its scale to
11/10, the first image keeps scale 11/10 and rotation -15, and the two text
layers are the seeded ones at every stage. -/
theorem c9_end_to_end_scenario (c : Scenario) (hdist : imageId c.now1 ≠ imageId c.now2) :
    c.afterUpload1.layers = [headlineLayer, ctaLayer, c.image1] ∧
    c.image1.data.scale = some 1 ∧ c.image1.data.rotation = some 0 ∧
    c.afterZoom1.layers = [headlineLayer, ctaLayer, withScaleRotation c.image1 (11/10) 0] ∧
    c.afterZoom1.showPopup = false ∧
    c.afterRotate.layers = [headlineLayer, ctaLayer, withScaleRotation c.image1 (11/10) (-15)] ∧
    c.afterUpload2.layers = c.afterRotate.layers ++ [c.image2] ∧
    c.image2.data.scale = some 1 ∧ c.image2.data.rotation = some 0 ∧
    c.afterZoom2.layers = c.afterUpload2.layers ∧
    c.afterZoom2.showPopup = true ∧
    c.afterZoom2.pendingAction = some "zoom+" ∧
    c.afterChoice.layers = [headlineLayer, ctaLayer, withScaleRotation c.image1 (11/10) (-15),
      withScaleRotation c.image2 (11/10) 0] ∧
    c.afterChoice.showPopup = false ∧
    c.afterChoice.pendingAction = none := by
  have h4 : c.afterUpload2.layers = c.afterRotate.layers ++ [c.image2] := by
    rw [Scenario.afterUpload2, afterRotate_eq]
    rfl
  refine ⟨rfl, rfl, rfl, ?_, ?_, ?_, h4, rfl, rfl, ?_, ?_, ?_, ?_, ?_, ?_⟩
  · rw [afterZoom1_eq]
  · rw [afterZoom1_eq]; rfl
  · rw [afterRotate_eq]
  · rw [h4, afterZoom2_eq, afterRotate_eq]; rfl
  · rw [afterZoom2_eq]
  · rw [afterZoom2_eq]
  · rw [afterChoice_eq c hdist]
  · rw [afterChoice_eq c hdist]; rfl
  · rw [afterChoice_eq c hdist]; rfl

/-- C9 on two uploads one millisecond apart: the final array. -/
theorem c9_end_to_end_scenario_witness :
    imageId sampleScenario.now1 ≠ imageId sampleScenario.now2 ∧
    sampleScenario.afterChoice.layers =
      [headlineLayer, ctaLayer, withScaleRotation sampleScenario.image1 (11/10) (-15),
       withScaleRotation sampleScenario.image2 (11/10) 0] :=
  ⟨by decide, (c9_end_to_end_scenario sampleScenario (by decide)).2.2.2.2.2.2.2.2.2.2.2.2.1⟩

/-! ## C10 -/

theorem transformLayerScale_of_nonzero_scale (id : String) (delta s : ℚ) (l : Layer)
    (hid : l.id = id) (hty : l.type = "image") (hs : l.data.scale = some s) (h0 : s ≠ 0)
    (prev : List Layer) (i : Nat) (hi : prev[i]? = some l) :
    (transformLayerScale id delta prev)[i]? =
      some { l with data := { l.data with scale := some (max (1/5) (s + delta)) } } := by
  rw [transformLayerScale_getElem?, hi, Option.map_some', if_pos ⟨hid, hty⟩]
  simp [hs, orDefault, h0]

/-- C10 fails on the code at a stored scale of 0: `transformLayerScale` with
delta 0.1 stores 11/10 (it reads `scale || 1`, and 0 is falsy), where
max(0.2, 0 + 0.1) is 0.2. -/
theorem c10_zero_scale_is_read_as_one :
    (transformLayerScale "image-1" (1/10) [zeroScaleImage]).map (fun l => l.data.scale)
      = [some (11/10)] ∧
    max (1/5 : ℚ) (0 + 1/10) = 1/5 := by
  constructor
  · simp [transformLayerScale, zeroScaleImage, orDefault]
    norm_num
  · norm_num

/-! ## C11 -/

/-- C11 fails on the code: in the state where `zoom+` awaits the choice
between two image layers, `Cancel` hides the popup and leaves the layers as
they are, but `pendingAction` still holds `zoom+`; it is not null. -/
theorem c11_cancel_keeps_pending_action :
    2 ≤ (imageLayers sampleScenario.afterZoom2.layers).length ∧
    sampleScenario.afterZoom2.showPopup = true ∧
    sampleScenario.afterZoom2.pendingAction = some "zoom+" ∧
    (cancelPopup sampleScenario.afterZoom2).showPopup = false ∧
    (cancelPopup sampleScenario.afterZoom2).layers = sampleScenario.afterZoom2.layers ∧
    (cancelPopup sampleScenario.afterZoom2).pendingAction = some "zoom+" := by
  rw [afterZoom2_eq]
  refine ⟨by decide, rfl, rfl, rfl, rfl, rfl⟩

/-! ## C12 -/

theorem textTransformData_fields (layer : Layer) (node : TextNode) (f : ℚ)
    (hf : layer.data.fontSize = some f) (h0 : f ≠ 0) :
    (textTransformData layer node).fontSize = some (f * node.scaleX) ∧
    (textTransformData layer node).x = some node.x ∧
    (textTransformData layer node).y = some node.y ∧
    (textTransformData layer node).rotation = some node.rotation ∧
    (textTransformData layer node).src = layer.data.src ∧
    (textTransformData layer node).blob = layer.data.blob ∧
    (textTransformData layer node).scale = layer.data.scale ∧
    (textTransformData layer node).text = layer.data.text ∧
    (textTransformData layer node).fill = layer.data.fill ∧
    (textTransformData layer node).fontStyle = layer.data.fontStyle ∧
    (textTransformData layer node).draggable = layer.data.draggable := by
  refine ⟨?_, rfl, rfl, rfl, rfl, rfl, rfl, rfl, rfl, rfl, rfl⟩
  simp [textTransformData, hf, orDefault, h0]

/-- C12 fails on the code: for the call-to-action layer (font size 40) and a
gesture that reports factor 2, the handler issues one update with font size
80 and the reported x, y and rotation, but it resets no scale: the update
stores no scale of 1 and the node still reads `scaleX = 2`. A following
gesture of factor 3/2 on that node is then read as `scaleX = 3`, and the
handler stores font size 240, where 40 × 2 × 3/2 is 120. -/
theorem c12_text_resize_does_not_reset_scale :
    (textTransformData ctaLayer resizedNode).fontSize = some 80 ∧
    (textTransformData ctaLayer resizedNode).x = some 100 ∧
    (textTransformData ctaLayer resizedNode).y = some 200 ∧
    (textTransformData ctaLayer resizedNode).rotation = some 30 ∧
    (textTransformEnd ctaLayer resizedNode seededLayers).1 =
      [headlineLayer, { ctaLayer with data := textTransformData ctaLayer resizedNode }] ∧
    (textTransformData ctaLayer resizedNode).scale = none ∧
    (textTransformEnd ctaLayer resizedNode seededLayers).2.scaleX = 2 ∧
    (textTransformData { ctaLayer with data := textTransformData ctaLayer resizedNode }
        { resizedNode with scaleX := 2 * (3/2) }).fontSize = some 240 ∧
    (40 : ℚ) * 2 * (3/2) = 120 := by
  have h1 : (textTransformData ctaLayer resizedNode).fontSize = some 80 := by
    simp [textTransformData, ctaLayer, resizedNode, orDefault]
    norm_num
  refine ⟨h1, rfl, rfl, rfl, ?_, rfl, rfl, ?_, by norm_num⟩
  · simp [textTransformEnd, updateLayerData, seededLayers, headlineLayer, ctaLayer]
  · simp [textTransformData, ctaLayer, resizedNode, orDefault]
    norm_num

/-! ## C13 -/

theorem layerIds_updateLayerData (id : String) (newData : LayerData) (prev : List Layer) :
    layerIds (updateLayerData id newData prev) = layerIds prev := by
  simp only [updateLayerData, layerIds, List.map_map]
  apply List.map_congr_left
  intro l _
  by_cases h : l.id = id <;> simp [h]

theorem uiStep_selectionLive (s : Store) (op : UiOp) (hs : selectionLive s)
    (hop : ∀ id, (op = UiOp.timerSelect id ∨ op = UiOp.select id) → id ∈ layerIds s.layers) :
    selectionLive (uiStep s op) := by
  cases op with
  | handleFile file url now =>
    cases file with
    | none => exact hs
    | some f =>
      unfold selectionLive at hs ⊢
      cases hsel : s.selectedId with
      | none => simp [uiStep, handleFile, hsel]
      | some j =>
        rw [hsel] at hs
        simp only [uiStep, handleFile, hsel, layerIds, List.map_append, List.mem_append]
        exact Or.inl hs
  | addTextLayer opts now =>
    unfold selectionLive at hs ⊢
    cases hsel : s.selectedId with
    | none => simp [uiStep, addTextLayer, hsel]
    | some j =>
      rw [hsel] at hs
      simp only [uiStep, addTextLayer, hsel, layerIds, List.map_append, List.mem_append]
      exact Or.inl hs
  | timerSelect id => exact hop id (Or.inl rfl)
  | deleteLayer id =>
    unfold selectionLive at hs ⊢
    cases hsel : s.selectedId with
    | none => simp [uiStep, deleteLayer, hsel]
    | some j =>
      rw [hsel] at hs
      by_cases hj : j = id
      · simp [uiStep, deleteLayer, hsel, hj]
      · have hne : ¬ (some j = some id) := fun h => hj (Option.some.inj h)
        have hmem : j ∈ layerIds (deleteLayer id s).layers := by
          rw [layerIds_deleteLayer]
          exact List.mem_filter.mpr ⟨hs, by simpa using hj⟩
        have hsel' : (deleteLayer id s).selectedId = some j := by
          simp [deleteLayer, hsel, hj]
        show (match (deleteLayer id s).selectedId with
              | none => True
              | some i => i ∈ layerIds (deleteLayer id s).layers)
        rw [hsel']
        exact hmem
  | moveLayer id direction =>
    unfold selectionLive at hs ⊢
    cases hsel : s.selectedId with
    | none => simp [uiStep, hsel]
    | some j =>
      rw [hsel] at hs
      simp only [uiStep, hsel]
      exact ((moveLayer_perm id direction s.layers).map _).mem_iff.mpr hs
  | updateLayerData id newData =>
    unfold selectionLive at hs ⊢
    cases hsel : s.selectedId with
    | none => simp [uiStep, hsel]
    | some j =>
      rw [hsel] at hs
      simp only [uiStep, hsel]
      rw [layerIds_updateLayerData]
      exact hs
  | select id => exact hop id (Or.inr rfl)
  | deselect => simp [uiStep, selectionLive]
  | clearAll => simp [uiStep, selectionLive]

theorem uiRun_selectionLive : ∀ (ops : List UiOp) (s : Store), selectionLive s →
    selectsLive s ops = true → selectionLive (uiRun s ops) := by
  intro ops
  induction ops with
  | nil => intro s hs _; exact hs
  | cons op ops ih =>
    intro s hs hl
    simp only [selectsLive, Bool.and_eq_true] at hl
    have hstep : selectionLive (uiStep s op) := by
      apply uiStep_selectionLive s op hs
      intro id hid
      rcases hid with h | h
      · have h1 := hl.1
        rw [h] at h1
        simpa using h1
      · have h1 := hl.1
        rw [h] at h1
        simpa using h1
    exact ih (uiStep s op) hstep hl.2

/-- C13 fails on the code: `+ Text` at clock value 1000, then the delete
button of the new row before the 50 ms timer of `addTextLayer` fires, then
the timer: `selectedId` is `text-1000`, which is the id of no layer of the
array. -/
theorem c13_delayed_selection_outlives_layer :
    (uiRun initialStore
      [UiOp.addTextLayer plusTextOpts 1000, UiOp.deleteLayer "text-1000",
       UiOp.timerSelect "text-1000"]).selectedId = some "text-1000" ∧
    "text-1000" ∉ layerIds (uiRun initialStore
      [UiOp.addTextLayer plusTextOpts 1000, UiOp.deleteLayer "text-1000",
       UiOp.timerSelect "text-1000"]).layers ∧
    ¬ selectionLive (uiRun initialStore
      [UiOp.addTextLayer plusTextOpts 1000, UiOp.deleteLayer "text-1000",
       UiOp.timerSelect "text-1000"]) := by
  have h1 : (uiRun initialStore
      [UiOp.addTextLayer plusTextOpts 1000, UiOp.deleteLayer "text-1000",
       UiOp.timerSelect "text-1000"]).selectedId = some "text-1000" := rfl
  have h2 : "text-1000" ∉ layerIds (uiRun initialStore
      [UiOp.addTextLayer plusTextOpts 1000, UiOp.deleteLayer "text-1000",
       UiOp.timerSelect "text-1000"]).layers := by decide
  refine ⟨h1, h2, ?_⟩
  unfold selectionLive
  rw [h1]
  exact h2

/-! ## C14 -/

theorem removeBgHandler_missing_file (upstream : Upstream) :
    (removeBgHandler none upstream).1.status = 400 ∧ (removeBgHandler none upstream).2 = 0 :=
  ⟨rfl, rfl⟩

theorem removeBgHandler_upstream_throws (file : UploadedFile) :
    (removeBgHandler (some file) Upstream.throws).1.status = 500 :=
  rfl

/-- C14 fails on the code: for a request with a file, when the upstream call
answers with the non-success status 403 and an error text as body, the handler
answers with status 200 and `Content-Type: image/png`, carrying that error
text; it does not answer 500. -/
theorem c14_upstream_error_status_relayed_as_png :
    (Upstream.response 403 (some "error: invalid api key")).ok = false ∧
    (removeBgHandler (some sampleUpload)
        (Upstream.response 403 (some "error: invalid api key"))).1 =
      { status := 200, contentType := some "image/png", body := "error: invalid api key" } ∧
    (removeBgHandler (some sampleUpload)
        (Upstream.response 403 (some "error: invalid api key"))).1.status ≠ 500 := by
  decide

/-! ## Ids of the stores the app reaches -/

theorem layerIds_map_keep_id (f : Layer → Layer) (hf : ∀ l, (f l).id = l.id)
    (ls : List Layer) : layerIds (ls.map f) = layerIds ls := by
  simp only [layerIds, List.map_map]
  apply List.map_congr_left
  intro l _
  exact hf l

theorem layerIds_transformLayerScale (id : String) (delta : ℚ) (ls : List Layer) :
    layerIds (transformLayerScale id delta ls) = layerIds ls :=
  layerIds_map_keep_id _ (fun l => by split <;> rfl) ls

theorem layerIds_transformLayerRotate (id : String) (delta : ℚ) (ls : List Layer) :
    layerIds (transformLayerRotate id delta ls) = layerIds ls :=
  layerIds_map_keep_id _ (fun l => by split <;> rfl) ls

theorem layerIds_removeBGSuccess (id newUrl newBlob : String) (ls : List Layer) :
    layerIds (removeBGSuccess id newUrl newBlob ls) = layerIds ls :=
  layerIds_map_keep_id _ (fun l => by split <;> rfl) ls

theorem layerIds_removeBG (id : String) (remote : Remote) (s : Store) :
    layerIds (removeBG id remote s).1.layers = layerIds s.layers := by
  unfold removeBG
  repeat' split
  all_goals first | rfl | exact layerIds_removeBGSuccess _ _ _ _

theorem layerIds_applyAction (action id : String) (remote : Remote) (s : Store) :
    layerIds (applyAction action id remote s).1.layers = layerIds s.layers := by
  unfold applyAction
  simp only
  repeat' split
  all_goals first
    | rfl
    | exact layerIds_transformLayerScale _ _ _
    | exact layerIds_transformLayerRotate _ _ _
    | exact layerIds_removeBG _ _ _

theorem layerIds_handleAction (action : String) (remote : Remote) (s : Store) :
    layerIds (handleAction action remote s).1.layers = layerIds s.layers := by
  unfold handleAction
  simp only
  repeat' split
  all_goals first | rfl | exact layerIds_applyAction _ _ _ _

theorem layerIds_removeBGButton (remote : Remote) (s : Store) :
    layerIds (removeBGButton remote s).1.layers = layerIds s.layers := by
  unfold removeBGButton
  simp only
  repeat' split
  all_goals first | rfl | exact layerIds_applyAction _ _ _ _

theorem textId_ne_empty (now : Nat) : textId now ≠ "" := by
  intro h
  have hlen := congrArg String.length h
  simp only [textId, String.length_append] at hlen
  have h5 : ("text-" : String).length = 5 := by decide
  have h0 : ("" : String).length = 0 := by decide
  omega

theorem uiStep_ids_nonempty (s : Store) (op : UiOp) (hs : "" ∉ layerIds s.layers) :
    "" ∉ layerIds (uiStep s op).layers := by
  cases op with
  | handleFile file url now =>
    cases file with
    | none => exact hs
    | some f =>
      simp only [uiStep, handleFile, layerIds, List.map_append, List.map_cons, List.map_nil,
        List.mem_append, List.mem_singleton, not_or]
      exact ⟨hs, fun h => imageId_ne_empty now h.symm⟩
  | addTextLayer opts now =>
    simp only [uiStep, addTextLayer, layerIds, List.map_append, List.map_cons, List.map_nil,
      List.mem_append, List.mem_singleton, not_or]
    exact ⟨hs, fun h => textId_ne_empty now h.symm⟩
  | timerSelect id => exact hs
  | deleteLayer id =>
    show "" ∉ layerIds (deleteLayer id s).layers
    rw [layerIds_deleteLayer]
    exact fun h => hs (List.mem_filter.mp h).1
  | moveLayer id direction =>
    show "" ∉ layerIds (moveLayer id direction s.layers)
    exact fun h => hs (((moveLayer_perm id direction s.layers).map _).mem_iff.mp h)
  | updateLayerData id newData =>
    show "" ∉ layerIds (updateLayerData id newData s.layers)
    rw [layerIds_updateLayerData]
    exact hs
  | select id => exact hs
  | deselect => exact hs
  | clearAll => simp [uiStep, layerIds]

theorem appStep_ids_nonempty (s : Store) (op : AppOp) (hs : "" ∉ layerIds s.layers) :
    "" ∉ layerIds (appStep s op).layers := by
  cases op with
  | ui op => exact uiStep_ids_nonempty s op hs
  | handleAction action remote =>
    show "" ∉ layerIds (handleAction action remote s).1.layers
    rw [layerIds_handleAction]; exact hs
  | removeBGButton remote =>
    show "" ∉ layerIds (removeBGButton remote s).1.layers
    rw [layerIds_removeBGButton]; exact hs
  | popupChoose imgId remote =>
    show "" ∉ layerIds (applyAction _ imgId remote s).1.layers
    rw [layerIds_applyAction]; exact hs
  | popupApply imgId remote =>
    show "" ∉ layerIds (applyAction _ imgId remote s).1.layers
    rw [layerIds_applyAction]; exact hs
  | cancelPopup => exact hs
  | removeBGArrives id newUrl newBlob =>
    show "" ∉ layerIds (removeBGSuccess id newUrl newBlob s.layers)
    rw [layerIds_removeBGSuccess]; exact hs
  | setHeadlineText txt =>
    show "" ∉ layerIds (setHeadlineText txt s.layers)
    rw [setHeadlineText, layerIds_map_keep_id _ (fun l => by split <;> rfl)]; exact hs
  | setCtaText txt =>
    show "" ∉ layerIds (setCtaText txt s.layers)
    rw [setCtaText, layerIds_map_keep_id _ (fun l => by split <;> rfl)]; exact hs
  | setHeadlineColor color =>
    show "" ∉ layerIds (setHeadlineColor color s.layers)
    rw [setHeadlineColor, layerIds_map_keep_id _ (fun l => by split <;> rfl)]; exact hs
  | setCtaColor color =>
    show "" ∉ layerIds (setCtaColor color s.layers)
    rw [setCtaColor, layerIds_map_keep_id _ (fun l => by split <;> rfl)]; exact hs
  | headlineFontUp =>
    show "" ∉ layerIds (headlineFontUp s.layers)
    rw [headlineFontUp, layerIds_map_keep_id _ (fun l => by split <;> rfl)]; exact hs
  | headlineFontDown =>
    show "" ∉ layerIds (headlineFontDown s.layers)
    rw [headlineFontDown, layerIds_map_keep_id _ (fun l => by split <;> rfl)]; exact hs
  | ctaFontUp =>
    show "" ∉ layerIds (ctaFontUp s.layers)
    rw [ctaFontUp, layerIds_map_keep_id _ (fun l => by split <;> rfl)]; exact hs
  | ctaFontDown =>
    show "" ∉ layerIds (ctaFontDown s.layers)
    rw [ctaFontDown, layerIds_map_keep_id _ (fun l => by split <;> rfl)]; exact hs
  | setCanvasSize size => exact hs

theorem appRun_ids_nonempty : ∀ (ops : List AppOp) (s : Store), "" ∉ layerIds s.layers →
    "" ∉ layerIds (appRun s ops).layers := by
  intro ops
  induction ops with
  | nil => intro s hs; exact hs
  | cons op ops ih =>
    intro s hs
    exact ih (appStep s op) (appStep_ids_nonempty s op hs)

/-- No store the app can be in holds a layer whose id is the empty string. -/
theorem reachable_ids_nonempty (s : Store) (hreach : Reachable s) :
    ∀ l ∈ s.layers, l.id ≠ "" := by
  obtain ⟨ops, rfl⟩ := hreach
  intro l hl hid
  have h := appRun_ids_nonempty ops initialStore (by decide)
  exact h (List.mem_map.mpr ⟨l, hl, hid⟩)

/-! ## C5 -/

/-- C5: in every store the app can be in whose layer ids are distinct, for
each of `zoom+`, `zoom-`, `rotateL`, `rotateR` issued through `handleAction`:
with no image layer the array is unchanged; with exactly one image layer the
action is applied to it at once, every other layer is unchanged and the popup
is not shown; with two or more, the array is unchanged, the popup is shown and
the action is recorded as pending, and then either button of the popup row of
an image layer applies the action to that layer and leaves every other layer
unchanged. -/
theorem c5_handleAction_disambiguates (s : Store) (a : String) (remote : Remote)
    (hreach : Reachable s) (hnd : (layerIds s.layers).Nodup)
    (ha : a = "zoom+" ∨ a = "zoom-" ∨ a = "rotateL" ∨ a = "rotateR") :
    ((imageLayers s.layers).length = 0 → (handleAction a remote s).1.layers = s.layers) ∧
    (∀ (i : Nat) (img : Layer), s.layers[i]? = some img → imageLayers s.layers = [img] →
      (handleAction a remote s).1.showPopup = false ∧
      ∀ j : Nat, (handleAction a remote s).1.layers[j]? =
        if j = i then some (actionOn a img) else s.layers[j]?) ∧
    (2 ≤ (imageLayers s.layers).length →
      (handleAction a remote s).1.layers = s.layers ∧
      (handleAction a remote s).1.showPopup = true ∧
      (handleAction a remote s).1.pendingAction = some a ∧
      ∀ (i : Nat) (img : Layer), s.layers[i]? = some img → img.type = "image" →
        ∀ j : Nat,
          (popupChoose img.id remote (handleAction a remote s).1).1.layers[j]? =
            (if j = i then some (actionOn a img) else s.layers[j]?) ∧
          (popupApply img.id remote (handleAction a remote s).1).1.layers[j]? =
            (if j = i then some (actionOn a img) else s.layers[j]?)) :=
  handleAction_targets_one_image_of_ids s a remote hnd
    (fun l hl _ => reachable_ids_nonempty s hreach l hl) ha

/-- C5 on the store reached by one upload and then on the store reached by
two: with one image `zoom+` is applied to it, at index 2, and the popup stays
hidden; with two images `zoom+` changes no layer, shows the popup and is left
pending. -/
theorem c5_handleAction_disambiguates_witness :
    Reachable oneImageStore ∧
    (layerIds oneImageStore.layers).Nodup ∧
    (handleAction "zoom+" Remote.transportError oneImageStore).1.showPopup = false ∧
    (handleAction "zoom+" Remote.transportError oneImageStore).1.layers[2]? =
      some (actionOn "zoom+" (newImageLayer "a.png" "blob:a" 1000 initialStore.canvasSize)) ∧
    Reachable sampleScenario.afterUpload2 ∧
    (handleAction "zoom+" Remote.transportError sampleScenario.afterUpload2).1.layers
      = sampleScenario.afterUpload2.layers ∧
    (handleAction "zoom+" Remote.transportError sampleScenario.afterUpload2).1.showPopup
      = true := by
  have r1 : Reachable oneImageStore :=
    ⟨[AppOp.ui (UiOp.handleFile (some "a.png") "blob:a" 1000)], rfl⟩
  have r2 : Reachable sampleScenario.afterUpload2 :=
    ⟨[AppOp.ui (UiOp.handleFile (some "a.png") "blob:a" 1000),
      AppOp.handleAction "zoom+" Remote.transportError,
      AppOp.handleAction "rotateL" Remote.transportError,
      AppOp.ui (UiOp.handleFile (some "b.png") "blob:b" 1001)], rfl⟩
  have n1 : (layerIds oneImageStore.layers).Nodup := by decide
  have n2 : (layerIds sampleScenario.afterUpload2.layers).Nodup := by
    rw [Scenario.afterUpload2, afterRotate_eq]
    decide
  have i2 : 2 ≤ (imageLayers sampleScenario.afterUpload2.layers).length := by
    rw [Scenario.afterUpload2, afterRotate_eq]
    decide
  have h1 := (c5_handleAction_disambiguates oneImageStore "zoom+" Remote.transportError r1 n1
    (Or.inl rfl)).2.1 2 (newImageLayer "a.png" "blob:a" 1000 initialStore.canvasSize) rfl rfl
  have h2 := (c5_handleAction_disambiguates sampleScenario.afterUpload2 "zoom+"
    Remote.transportError r2 n2 (Or.inl rfl)).2.2 i2
  exact ⟨r1, n1, h1.1, by simpa using h1.2 2, r2, h2.1, h2.2.1⟩

end CreativePilot
